import Mathlib

/-!
Verification of the JO&SO AI concierge server (`server.js` and the legacy
variant in `src/unnamed/part_000`).

The JavaScript code is shallowly embedded: JS strings become `List Char`,
JS values stored in CMS `fieldData` become the inductive `JVal`, objects
become association lists, and asynchronous fetches become explicit
environment parameters carrying the results (success or thrown error) of
each network call.  Numbers are modelled as rationals.
-/

namespace JoAndSo

/-- Model of a JavaScript value as it occurs in CMS `fieldData`: strings,
finite numbers (modelled as rationals), booleans, `null`, `undefined`, and
objects of which the code only ever reads the `url` property. -/
inductive JVal where
  | undefined : JVal
  | nullv : JVal
  | boolv : Bool → JVal
  | num : ℚ → JVal
  | str : List Char → JVal
  | obj : Option (List Char) → JVal
deriving DecidableEq, Repr

/-- JavaScript truthiness: `undefined`, `null`, `false`, `0`, and the empty
string are falsy; every other modelled value is truthy. -/
def jsTruthy : JVal → Bool
  | .undefined => false
  | .nullv => false
  | .boolv b => b
  | .num q => !(decide (q = 0))
  | .str s => !(s.isEmpty)
  | .obj _ => true

/-- JavaScript `a || b`: the left operand when truthy, otherwise the right. -/
def jsOr (a b : JVal) : JVal :=
  if jsTruthy a then a else b

/-- JavaScript `x?.url`: the `url` property of an object, `undefined` for
anything that lacks one. -/
def dotUrl : JVal → JVal
  | .obj (some u) => .str u
  | _ => .undefined

/-- A CMS item's `fieldData` object, as an association list from key to value. -/
def FieldData : Type := List (String × JVal)

instance : DecidableEq FieldData := by
  unfold FieldData
  infer_instance

/-- Property access `f[k]` on a `fieldData` object: value of the first
binding of the key, `undefined` when the key is absent. -/
def fget (f : FieldData) (k : String) : JVal :=
  match f.find? (fun p => p.1 == k) with
  | some p => p.2
  | none => .undefined

/-- A CMS item as held in the cache: `fieldData` may be absent
(the handlers guard with `h.fieldData?` / `h.fieldData &&`). -/
structure Item where
  fieldData : Option FieldData
deriving DecidableEq

/-- The process-wide CMS cache (`cmsCache`): hotels, regions and the
timestamp of the last completed refresh. -/
structure Cache where
  hotels : List Item
  regions : List Item
  lastFetch : Option Nat
deriving DecidableEq

/-- Digits of a natural number, used for the JS string coercion of numbers. -/
def natToChars (n : Nat) : List Char :=
  Nat.toDigits 10 n

/-- String coercion of an integer. -/
def intToChars (i : Int) : List Char :=
  if i < 0 then '-' :: natToChars i.natAbs else natToChars i.natAbs

/-- JavaScript string coercion (template interpolation) of a modelled value.
Non-integer numbers are rendered approximately (as `num/den`); no claim in
this development depends on the rendering of a non-integer number. -/
def jsToString : JVal → List Char
  | .str s => s
  | .undefined => "undefined".data
  | .nullv => "null".data
  | .boolv true => "true".data
  | .boolv false => "false".data
  | .num q => if q.den = 1 then intToChars q.num
              else intToChars q.num ++ '/' :: natToChars q.den
  | .obj _ => "[object Object]".data

/-- Whitespace characters stripped by `String.prototype.trim` (ASCII core). -/
def wsChar (c : Char) : Bool :=
  c = ' ' || c = '\t' || c = '\n' || c = '\r'

/-- Numeric value of a list of decimal digit characters. -/
def digitsToNat (ds : List Char) : Nat :=
  ds.foldl (fun a c => a * 10 + (c.toNat - 48)) 0

/-- Decimal parsing at the core of JavaScript `parseFloat`: skip leading
whitespace, optional sign, then a run of digits with an optional fractional
part; trailing junk is ignored; `none` when no digits are found (NaN). -/
def parseDec (s : List Char) : Option ℚ :=
  let s1 := s.dropWhile wsChar
  let sign : ℚ × List Char :=
    match s1 with
    | '-' :: r => (-1, r)
    | '+' :: r => (1, r)
    | _ => (1, s1)
  let ip := sign.2.takeWhile Char.isDigit
  let s3 := sign.2.dropWhile Char.isDigit
  let fp : List Char :=
    match s3 with
    | '.' :: r => r.takeWhile Char.isDigit
    | _ => []
  if ip = [] ∧ fp = [] then none
  else some (sign.1 * ((digitsToNat ip : ℚ) + (digitsToNat fp : ℚ) / (10 ^ fp.length)))

/-- JavaScript `parseFloat` on a modelled value: numbers round-trip, strings
are decimal-parsed, everything else stringifies to non-numeric text (NaN,
modelled as `none`). -/
def parseFloatJ : JVal → Option ℚ
  | .num q => some q
  | .str s => parseDec s
  | _ => none

/-- The coordinate coercion `parseFloat(v) || null` used for `lat`/`lng`:
a parse failure (NaN) or a parsed zero are both falsy and collapse to
`null` (absent). -/
def coerceCoord (v : JVal) : Option ℚ :=
  match parseFloatJ v with
  | some q => if q = 0 then none else some q
  | none => none

/-- The normalized hotel record built by `getHotelBySlug` in `server.js`. -/
@[ext]
structure HotelRecord where
  name : JVal
  slug : JVal
  region : JVal
  description : JVal
  lat : Option ℚ
  lng : Option ℚ
  image : JVal
  bookingUrl : JVal
  rooms : JVal
  url : List Char
deriving DecidableEq

/-- The normalized hotel record built inline by `getAllHotels` in
`server.js` (no `rooms` field and no `meta-description` fallback). -/
structure HotelListRecord where
  name : JVal
  slug : JVal
  region : JVal
  description : JVal
  lat : Option ℚ
  lng : Option ℚ
  image : JVal
  bookingUrl : JVal
  url : List Char
deriving DecidableEq

/-- The marker record built by the legacy `GET /api/hotels/markers` handler
(raw `lat`/`lng` values, no URL, no `region-2` fallback, no default image). -/
structure MarkerRecord where
  name : JVal
  slug : JVal
  region : JVal
  lat : JVal
  lng : JVal
  image : JVal
deriving DecidableEq

/-- Field normalization of `getHotelBySlug` (`server.js` lines 143-155):
first truthy value of an ordered candidate-key list per attribute. -/
def toHotelRecord (f : FieldData) : HotelRecord where
  name := jsOr (fget f "name") (jsOr (fget f "hotel-name") (.str "Unnamed".data))
  slug := fget f "slug"
  region := jsOr (fget f "region") (jsOr (fget f "location")
    (jsOr (fget f "region-2") (.str "Portugal".data)))
  description := jsOr (fget f "short-description") (jsOr (fget f "description")
    (jsOr (fget f "meta-description") (.str [])))
  lat := coerceCoord (jsOr (fget f "latitude") (fget f "lat"))
  lng := coerceCoord (jsOr (fget f "longitude") (jsOr (fget f "lng") (fget f "lon")))
  image := jsOr (dotUrl (fget f "cover-image")) (jsOr (dotUrl (fget f "cover"))
    (jsOr (dotUrl (fget f "main-image")) (.str [])))
  bookingUrl := jsOr (fget f "booking-url") (jsOr (fget f "booking-link")
    (jsOr (fget f "show-prices-url") (.str [])))
  rooms := jsOr (fget f "number-of-rooms") (jsOr (fget f "rooms") (.str []))
  url := "https://joandso.com/hotels-portugal/".data ++ jsToString (fget f "slug")

/-- Field normalization of `getAllHotels` (`server.js` lines 161-173). -/
def toListRecord (f : FieldData) : HotelListRecord where
  name := jsOr (fget f "name") (jsOr (fget f "hotel-name") (.str "Unnamed".data))
  slug := fget f "slug"
  region := jsOr (fget f "region") (jsOr (fget f "location")
    (jsOr (fget f "region-2") (.str "Portugal".data)))
  description := jsOr (fget f "short-description") (jsOr (fget f "description") (.str []))
  lat := coerceCoord (jsOr (fget f "latitude") (fget f "lat"))
  lng := coerceCoord (jsOr (fget f "longitude") (jsOr (fget f "lng") (fget f "lon")))
  image := jsOr (dotUrl (fget f "cover-image")) (jsOr (dotUrl (fget f "cover"))
    (jsOr (dotUrl (fget f "main-image")) (.str [])))
  bookingUrl := jsOr (fget f "booking-url") (jsOr (fget f "booking-link")
    (jsOr (fget f "show-prices-url") (.str [])))
  url := "https://joandso.com/hotels-portugal/".data ++ jsToString (fget f "slug")

/-- Marker construction of the legacy `/api/hotels/markers` handler
(`part_000` lines 340-349). -/
def toMarker (f : FieldData) : MarkerRecord where
  name := jsOr (fget f "name") (jsOr (fget f "hotel-name") (.str "Unnamed".data))
  slug := fget f "slug"
  region := jsOr (fget f "region") (jsOr (fget f "location") (.str "Portugal".data))
  lat := jsOr (fget f "latitude") (fget f "lat")
  lng := jsOr (fget f "longitude") (jsOr (fget f "lng") (fget f "lon"))
  image := jsOr (dotUrl (fget f "cover-image")) (jsOr (dotUrl (fget f "cover"))
    (dotUrl (fget f "main-image")))

/-- The filter `h.fieldData && !h.fieldData.archived && !h.fieldData['is-closed']`
shared by `getAllHotels` and the markers handler. -/
def activeItem (h : Item) : Bool :=
  match h.fieldData with
  | none => false
  | some f => !(jsTruthy (fget f "archived")) && !(jsTruthy (fget f "is-closed"))

/-- `getAllHotels` (`server.js` lines 158-175): filter out archived/closed
items, then normalize each remaining item's `fieldData`. -/
def getAllHotels (c : Cache) : List HotelListRecord :=
  (c.hotels.filter activeItem).map (fun h => toListRecord (h.fieldData.getD []))

/-- `getHotelBySlug` (`server.js` lines 139-156): find the first cached item
whose `fieldData?.slug` strictly equals the requested slug (no archived /
closed filter) and normalize it; `null` when absent. -/
def getHotelBySlug (c : Cache) (slug : List Char) : Option HotelRecord :=
  (c.hotels.find? (fun h =>
    match h.fieldData with
    | some f => fget f "slug" == JVal.str slug
    | none => false)).map (fun h => toHotelRecord (h.fieldData.getD []))

/-- The legacy `GET /api/hotels/markers` handler (`part_000` lines 333-353):
filter archived/closed, build raw markers, keep those with truthy `lat` and
`lng`. -/
def markersOf (c : Cache) : List MarkerRecord :=
  ((c.hotels.filter activeItem).map (fun h => toMarker (h.fieldData.getD []))).filter
    (fun m => jsTruthy m.lat && jsTruthy m.lng)

/-- Slug resolution of the chat handler (`server.js` lines 366-368):
`(parsed.hotels || []).map(slug => getHotelBySlug(slug)).filter(h => h !== null)`. -/
def hotelCards (c : Cache) (slugs : List (List Char)) : List HotelRecord :=
  (slugs.map (getHotelBySlug c)).filterMap id

/-- A Webflow collection descriptor as consumed by `refreshCMSCache`:
human-readable name fields and the collection id. -/
structure WfCollection where
  displayName : Option (List Char)
  slug : Option (List Char)
  id : List Char
deriving DecidableEq

/-- JavaScript `a || b` where `a` is a possibly-undefined string: the string
when truthy (non-empty), otherwise the fallback. -/
def jsStrOr (a : Option (List Char)) (b : List Char) : List Char :=
  match a with
  | some s => if s.isEmpty then b else s
  | none => b

/-- JavaScript `hay.includes(needle)`: substring containment. -/
def hasSub (hay needle : List Char) : Bool :=
  match hay with
  | [] => needle.isEmpty
  | _ :: t => needle.isPrefixOf hay || hasSub t needle

/-- The collection-discovery loop of `refreshCMSCache` (`server.js` lines
106-113): case-insensitive substring match on the collection name; later
matches overwrite earlier ones; `region`/`location` only matches in the
`else` branch. -/
def findCollectionIds (cols : List WfCollection) :
    Option (List Char) × Option (List Char) :=
  cols.foldl (fun acc col =>
    let name := (jsStrOr col.displayName (jsStrOr col.slug [])).map Char.toLower
    if hasSub name "hotel".data && !(hasSub name "type".data) then
      (some col.id, acc.2)
    else if hasSub name "region".data || hasSub name "location".data then
      (acc.1, some col.id)
    else acc) (none, none)

/-- Environment of one `refreshCMSCache` invocation: the configured
credential, the (error-absorbing) result of `fetchWebflowCollections`, the
outcome of `fetchAllCollectionItems` per collection id (`Except` models a
rejected promise, i.e. a thrown error), and the clock for `Date.now()`. -/
structure RefreshEnv where
  webflowToken : Option (List Char)
  collections : List WfCollection
  fetch : List Char → Except Unit (List Item)
  now : Nat

/-- Truthiness of a possibly-undefined environment string (`!!TOKEN` and the
`if (!WEBFLOW_API_TOKEN)` guard treat an unset and an empty credential alike). -/
def envTruthy : Option (List Char) → Bool
  | none => false
  | some s => !(s.isEmpty)

/-- One run of `refreshCMSCache` (`server.js` lines 91-133) over the mutable
cache, returning the cache after the call together with whether the `catch`
block ran (an error was thrown midway).  Mutations (`cmsCache.hotels = ...`)
take effect at each completed `await`, so a throw during the regions fetch
leaves the already-assigned hotels in place. -/
def refreshRun (env : RefreshEnv) (c : Cache) : Cache × Bool :=
  if !(envTruthy env.webflowToken) then (c, false)
  else
    let ids := findCollectionIds env.collections
    let step1 : Except Cache Cache :=
      match ids.1 with
      | none => .ok c
      | some i =>
        match env.fetch i with
        | .error _ => .error c
        | .ok items => .ok { c with hotels := items }
    match step1 with
    | .error c1 => (c1, true)
    | .ok c1 =>
      match ids.2 with
      | none => ({ c1 with lastFetch := some env.now }, false)
      | some i =>
        match env.fetch i with
        | .error _ => (c1, true)
        | .ok items => ({ c1 with regions := items, lastFetch := some env.now }, false)

/-- The process-wide cache of the legacy variant (`part_000` lines 20-25),
which also populates the `collections` slice. -/
structure CacheLegacy where
  hotels : List Item
  regions : List Item
  collections : List Item
  lastFetch : Option Nat
deriving DecidableEq

/-- The collection-discovery loop of the legacy `refreshCMSCache`
(`part_000` lines 109-118): as the main variant, plus a third `else if`
branch matching `name === 'collections' || name.includes('collection')`. -/
def findCollectionIdsLegacy (cols : List WfCollection) :
    Option (List Char) × Option (List Char) × Option (List Char) :=
  cols.foldl (fun acc col =>
    let name := (jsStrOr col.displayName (jsStrOr col.slug [])).map Char.toLower
    if hasSub name "hotel".data && !(hasSub name "type".data) then
      (some col.id, acc.2.1, acc.2.2)
    else if hasSub name "region".data || hasSub name "location".data then
      (acc.1, some col.id, acc.2.2)
    else if name == "collections".data || hasSub name "collection".data then
      (acc.1, acc.2.1, some col.id)
    else acc) (none, none, none)

/-- One `if (xCollectionId) { cmsCache.x = await fetchAllCollectionItems(...) }`
step of the legacy refresh: no collection id means no request; a rejected
fetch throws (`Except.error` carrying the cache as mutated so far); a
resolved fetch applies the assignment `upd`. -/
def fetchStep (env : RefreshEnv) (oid : Option (List Char)) (c : CacheLegacy)
    (upd : CacheLegacy → List Item → CacheLegacy) : Except CacheLegacy CacheLegacy :=
  match oid with
  | none => .ok c
  | some i =>
    match env.fetch i with
    | .error _ => .error c
    | .ok items => .ok (upd c items)

/-- One run of the legacy `refreshCMSCache` (`part_000` lines 91-144): the
hotels, regions and collections slices are fetched and assigned in
sequence inside one `try` block, then `lastFetch` is stamped; a throw at
any fetch is caught with every earlier assignment already applied. -/
def refreshRunLegacy (env : RefreshEnv) (c : CacheLegacy) : CacheLegacy × Bool :=
  if !(envTruthy env.webflowToken) then (c, false)
  else
    match fetchStep env (findCollectionIdsLegacy env.collections).1 c
        (fun c items => { c with hotels := items }) with
    | .error c1 => (c1, true)
    | .ok c1 =>
      match fetchStep env (findCollectionIdsLegacy env.collections).2.1 c1
          (fun c items => { c with regions := items }) with
      | .error c2 => (c2, true)
      | .ok c2 =>
        match fetchStep env (findCollectionIdsLegacy env.collections).2.2 c2
            (fun c items => { c with collections := items }) with
        | .error c3 => (c3, true)
        | .ok c3 => ({ c3 with lastFetch := some env.now }, false)

/-- A chat turn as forwarded to the completion API (`role`/`content`). -/
structure ChatTurn where
  role : List Char
  content : List Char
deriving DecidableEq

/-- Message-array construction of the main chat handler (`server.js` lines
308-314): `history.slice(-10)` mapped to `{role, content}` pairs, then the
new user turn appended. -/
def buildMessagesMain (history : List ChatTurn) (message : List Char) : List ChatTurn :=
  (history.drop (history.length - 10)).map (fun t => ⟨t.role, t.content⟩) ++
    [⟨"user".data, message⟩]

/-- Message-array construction of the legacy chat handler (`part_000` lines
290-296): the whole history mapped, then the new user turn appended — no
truncation. -/
def buildMessagesLegacy (history : List ChatTurn) (message : List Char) : List ChatTurn :=
  history.map (fun t => ⟨t.role, t.content⟩) ++ [⟨"user".data, message⟩]

/-- JavaScript `String.prototype.trim` on the character-list model. -/
def trimStr (s : List Char) : List Char :=
  ((s.dropWhile wsChar).reverse.dropWhile wsChar).reverse

/-- Step `if (cleanJson.startsWith('```json')) cleanJson = cleanJson.slice(7)`. -/
def stripJsonFence (s : List Char) : List Char :=
  if "```json".data.isPrefixOf s then s.drop 7 else s

/-- Step `if (cleanJson.startsWith('```'))` (three backticks) `cleanJson = cleanJson.slice(3)`. -/
def stripTickPre (s : List Char) : List Char :=
  if "```".data.isPrefixOf s then s.drop 3 else s

/-- Step `if (cleanJson.endsWith('```')) cleanJson = cleanJson.slice(0, -3)`. -/
def stripTickSuf (s : List Char) : List Char :=
  if "```".data.isSuffixOf s then s.take (s.length - 3) else s

/-- The markdown-fence cleanup of the chat handler (`server.js` lines
344-354): trim, strip a leading <code>```json</code> (7 chars), then a
leading <code>```</code> (3 chars), then a trailing <code>```</code>, and
trim the result (this is the exact text handed to `JSON.parse`). -/
def cleanFences (raw : List Char) : List Char :=
  trimStr (stripTickSuf (stripTickPre (stripJsonFence (trimStr raw))))

/-- A `mapAction` object from the model's structured reply. -/
structure MapAction where
  type : List Char
  lat : ℚ
  lng : ℚ
  zoom : ℚ
deriving DecidableEq

/-- The parsed structured reply `{message, hotels, mapAction}`; each field
may be absent or `null` in the model's JSON. -/
structure ParsedReply where
  message : Option (List Char)
  hotels : Option (List (List Char))
  mapAction : Option MapAction
deriving DecidableEq

/-- The canned fallback text used when the raw model output is empty. -/
def fallbackText : List Char :=
  "Let me help you find the perfect hotel in Portugal.".data

/-- JavaScript `a || b` on model strings (an empty string is falsy). -/
def strOrElse (a b : List Char) : List Char :=
  if a.isEmpty then b else a

/-- The fallback reply built when `JSON.parse` throws (`server.js` lines
355-363): first 200 characters of the raw text (or the canned text when
that is empty), no hotels, no map action. -/
def fallbackParsed (raw : List Char) : ParsedReply where
  message := some (strOrElse (raw.take 200) fallbackText)
  hotels := some []
  mapAction := none

/-- The JSON body returned by `POST /api/chat` on success (the `usage`
pass-through field is omitted from the model). -/
structure ChatResponse where
  message : List Char
  hotels : List HotelRecord
  mapAction : Option MapAction
deriving DecidableEq

/-- Response assembly of the chat handler (`server.js` lines 340-375) after
the completion call returned raw text: strip fences and parse (the JSON
parser itself is an abstract parameter `parse`; `none` models a throwing
`JSON.parse`), fall back on parse failure, then resolve slugs and default
the envelope fields (`parsed.message || ''`, `parsed.hotels || []`,
`parsed.mapAction || null`). -/
def chatRespond (parse : List Char → Option ParsedReply) (c : Cache)
    (raw : List Char) : ChatResponse :=
  let parsed :=
    match parse (cleanFences raw) with
    | some p => p
    | none => fallbackParsed raw
  { message := strOrElse (parsed.message.getD []) []
    hotels := hotelCards c (parsed.hotels.getD [])
    mapAction := parsed.mapAction }

/-- The secret-bearing environment of the server process. -/
structure ServerEnv where
  webflowToken : Option (List Char)
  anthropicKey : Option (List Char)
  mapboxToken : Option (List Char)

/-- The body returned by `GET /api/config`. -/
structure ConfigResponse where
  mapboxToken : List Char
  hasWebflow : Bool
  hasClaude : Bool
  hotelCount : Nat
deriving DecidableEq

/-- The `GET /api/config` handler (`server.js` lines 263-270):
`{mapboxToken: MAPBOX_TOKEN || '', hasWebflow: !!WEBFLOW_API_TOKEN,
hasClaude: !!ANTHROPIC_API_KEY, hotelCount: cmsCache.hotels.length}`. -/
def configHandler (e : ServerEnv) (c : Cache) : ConfigResponse where
  mapboxToken := jsStrOr e.mapboxToken []
  hasWebflow := envTruthy e.webflowToken
  hasClaude := envTruthy e.anthropicKey
  hotelCount := c.hotels.length

/-- The pagination loop of `fetchAllCollectionItems` (`server.js` lines
33-66) against a collection serving `server` in slices of 100 starting at
`offset`.  `fail req` tells whether the request with index `req` returns a
non-ok status (which breaks the loop).  Returns the number of page requests
issued from this point on and the items gathered. -/
def fetchLoop (server : List Item) (fail : Nat → Bool) (offset req : Nat) :
    Nat × List Item :=
  if fail req then (1, [])
  else
    if h : ((server.drop offset).take 100).length = 100 then
      let r := fetchLoop server fail (offset + 100) (req + 1)
      (r.1 + 1, (server.drop offset).take 100 ++ r.2)
    else (1, (server.drop offset).take 100)
termination_by server.length - offset
decreasing_by
  simp only [List.length_take, List.length_drop] at h
  omega

/-- `fetchAllCollectionItems` (`server.js` lines 33-66): run the pagination
loop from offset 0. -/
def fetchAllCollectionItems (server : List Item) (fail : Nat → Bool) :
    Nat × List Item :=
  fetchLoop server fail 0 0

/-- Re-reading a normalized hotel record as the `fieldData` of a CMS item
(the record's own property names become the keys), for the idempotence
claim about the normalizer. -/
def asFieldData (r : HotelRecord) : FieldData :=
  [("name", r.name), ("slug", r.slug), ("region", r.region),
   ("description", r.description),
   ("lat", match r.lat with | some q => .num q | none => .nullv),
   ("lng", match r.lng with | some q => .num q | none => .nullv),
   ("image", r.image), ("bookingUrl", r.bookingUrl), ("rooms", r.rooms),
   ("url", .str r.url)]

/-- The backtick character, extracted from a string literal. -/
def tick : Char :=
  match "`".data with
  | c :: _ => c
  | [] => ' '

/-- Fixture: the cache of the spec's chat example, holding one hotel
`{name: "Memmo Alfama", slug: "memmo-alfama", region: "Lisbon"}`. -/
def demoCache : Cache :=
  ⟨[⟨some [("name", .str "Memmo Alfama".data), ("slug", .str "memmo-alfama".data),
      ("region", .str "Lisbon".data)]⟩], [], some 0⟩

/-- Fixture: a parse step returning the spec's example assistant reply
`{"message":"Great pick!","hotels":["memmo-alfama","nonexistent-slug"],"mapAction":null}`. -/
def demoParse : List Char → Option ParsedReply :=
  fun _ => some ⟨some "Great pick!".data,
    some ["memmo-alfama".data, "nonexistent-slug".data], none⟩

/-- Fixture: the normalized record for the Memmo Alfama fixture item. -/
def memmoExpected : HotelRecord :=
  ⟨.str "Memmo Alfama".data, .str "memmo-alfama".data, .str "Lisbon".data,
   .str [], none, none, .str [], .str [], .str [],
   "https://joandso.com/hotels-portugal/memmo-alfama".data⟩

/-- Fixture: eleven identical history turns, one more than the truncation
window of the main chat handler. -/
def hist11 : List ChatTurn :=
  List.replicate 11 ⟨"user".data, "hi".data⟩

/-- Fixture: a cache holding a single item that is flagged `archived` and
carries slug `x`. -/
def archCache : Cache :=
  ⟨[⟨some [("slug", .str "x".data), ("archived", .boolv true),
      ("name", .str "Closed Hotel".data)]⟩], [], none⟩

/-- Fixture: a cache holding one unflagged item with slug `y`. -/
def cleanCache : Cache :=
  ⟨[⟨some [("slug", .str "y".data)]⟩], [], none⟩

/-- Fixture: a Webflow collection named "Hotels" with id `hid`. -/
def colHotels : WfCollection := ⟨some "Hotels".data, none, "hid".data⟩

/-- Fixture: a Webflow collection named "Regions" with id `rid`. -/
def colRegions : WfCollection := ⟨some "Regions".data, none, "rid".data⟩

/-- Fixture: a refresh environment in which the hotels fetch succeeds with
one new item and the regions fetch rejects (throws). -/
def envHotelsOkRegionsThrow : RefreshEnv :=
  ⟨some "token".data, [colHotels, colRegions],
   fun i => if i = "hid".data then .ok [⟨some [("name", .str "New Hotel".data)]⟩]
            else .error (), 5⟩

/-- Fixture: the cache before the counterexample refresh call. -/
def cacheBefore : Cache := ⟨[], [], none⟩

/-- Fixture: a Webflow collection named "Collections" with id `cid`. -/
def colCollections : WfCollection := ⟨some "Collections".data, none, "cid".data⟩

/-- Fixture: a legacy refresh environment in which the hotels and regions
fetches succeed with one new item each and the collections fetch rejects
(throws). -/
def envLegacyCollectionsThrow : RefreshEnv :=
  ⟨some "token".data, [colHotels, colRegions, colCollections],
   fun i => if i = "cid".data then .error ()
            else .ok [⟨some [("name", .str "Fetched".data)]⟩], 5⟩

/-- Fixture: the legacy cache before the witness refresh call. -/
def cacheLegacyBefore : CacheLegacy := ⟨[], [], [], none⟩

/-- Fixture: a CMS item whose `fieldData` carries a cover image. -/
def imgItemF : FieldData :=
  [("slug", .str "s".data), ("cover-image", .obj (some "http://img.example".data))]

theorem jsOr_pos (a b : JVal) (h : jsTruthy a = true) : jsOr a b = a := by
  simp [jsOr, h]

theorem jsOr_neg (a b : JVal) (h : jsTruthy a = false) : jsOr a b = b := by
  simp [jsOr, h]

theorem jsOr_undef_left (b : JVal) : jsOr .undefined b = b := rfl

theorem jsOr_nullv_left (b : JVal) : jsOr .nullv b = b := rfl

theorem jsTruthy_jsOr_right (a b : JVal) (h : jsTruthy b = true) :
    jsTruthy (jsOr a b) = true := by
  by_cases ha : jsTruthy a <;> simp [jsOr, ha, h]

theorem jsOr_eq_right_of_falsy (a b : JVal) (h : jsTruthy (jsOr a b) = false) :
    jsOr a b = b := by
  by_cases ha : jsTruthy a
  · rw [jsOr_pos a b ha] at h
    rw [ha] at h
    cases h
  · exact jsOr_neg a b (by simpa using ha)

/-- Claim C9: the `GET /api/config` response depends on the CMS credential
and the chat-completion credential only through their boolean presence
(presence meaning a configured non-empty value, exactly the `!!token`
test the handler performs): two runs with the same presence flags, the same
map-provider token and the same cache produce identical bodies, so the
response never carries the literal secret values. -/
theorem c9_config_secret_noninterference (e1 e2 : ServerEnv) (c : Cache)
    (hw : envTruthy e1.webflowToken = envTruthy e2.webflowToken)
    (ha : envTruthy e1.anthropicKey = envTruthy e2.anthropicKey)
    (hm : e1.mapboxToken = e2.mapboxToken) :
    configHandler e1 c = configHandler e2 c := by
  simp [configHandler, hw, ha, hm]

theorem c9_config_secret_noninterference_witness :
    envTruthy (some "cms-secret-A".data) = envTruthy (some "cms-secret-B".data) ∧
    configHandler ⟨some "cms-secret-A".data, some "chat-key-A".data,
        some "pk.map".data⟩ ⟨[], [], none⟩ =
      configHandler ⟨some "cms-secret-B".data, some "chat-key-B".data,
        some "pk.map".data⟩ ⟨[], [], none⟩ :=
  ⟨by decide,
   c9_config_secret_noninterference
     ⟨some "cms-secret-A".data, some "chat-key-A".data, some "pk.map".data⟩
     ⟨some "cms-secret-B".data, some "chat-key-B".data, some "pk.map".data⟩
     ⟨[], [], none⟩ (by decide) (by decide) rfl⟩

/-- Claim C10: when the latitude (resp. longitude) candidate value parses to
the number 0 — e.g. the string "0" — the `parseFloat(...) || null` coercion
treats the falsy 0 as missing, so both normalizers return the coordinate as
absent (`null`) rather than 0; the normalized record therefore carries no
such coordinate for map output. -/
theorem c10_zero_coordinate_absent :
    (∀ f : FieldData,
      parseFloatJ (jsOr (fget f "latitude") (fget f "lat")) = some 0 →
      (toHotelRecord f).lat = none ∧ (toListRecord f).lat = none) ∧
    (∀ f : FieldData,
      parseFloatJ (jsOr (fget f "longitude") (jsOr (fget f "lng") (fget f "lon"))) =
        some 0 →
      (toHotelRecord f).lng = none ∧ (toListRecord f).lng = none) := by
  constructor <;> intro f h <;>
    simp [toHotelRecord, toListRecord, coerceCoord, h]

theorem c10_zero_coordinate_absent_witness :
    parseFloatJ (jsOr (fget [("latitude", JVal.str "0".data)] "latitude")
      (fget [("latitude", JVal.str "0".data)] "lat")) = some 0 ∧
    ((toHotelRecord [("latitude", JVal.str "0".data)]).lat = none ∧
      (toListRecord [("latitude", JVal.str "0".data)]).lat = none) :=
  ⟨by simp [parseFloatJ, parseDec, fget, jsOr, jsTruthy, wsChar, digitsToNat],
   c10_zero_coordinate_absent.1 [("latitude", JVal.str "0".data)]
     (by simp [parseFloatJ, parseDec, fget, jsOr, jsTruthy, wsChar, digitsToNat])⟩

/-- Claim C5: the chat handler resolves every slug of the parsed reply
through `getHotelBySlug` and silently drops each slug that does not resolve
(the card list is exactly the `filterMap` of the resolver over the slugs);
in particular, with the cache holding the Memmo Alfama hotel and a reply
listing `["memmo-alfama", "nonexistent-slug"]`, `POST /api/chat` returns
exactly one card, the normalized Memmo Alfama record. -/
theorem c5_unresolved_slugs_dropped :
    (∀ (c : Cache) (slugs : List (List Char)),
      hotelCards c slugs = slugs.filterMap (getHotelBySlug c)) ∧
    (chatRespond demoParse demoCache "irrelevant".data).hotels = [memmoExpected] ∧
    (chatRespond demoParse demoCache "irrelevant".data).hotels.length = 1 := by
  refine ⟨fun c slugs => ?_, by decide, by decide⟩
  simp [hotelCards, List.filterMap_map]

/-- Claim C3, counterexample: the legacy chat handler (`part_000` lines
290-296) forwards an 11-turn history in full, which differs from the
claimed "most recent 10 turns followed by the new user turn". -/
theorem c3_counterexample :
    buildMessagesLegacy hist11 "now".data ≠
      hist11.drop (hist11.length - 10) ++ [⟨"user".data, "now".data⟩] := by
  decide

/-- Claim C3 (amended): the main server's chat handler forwards exactly the
most recent 10 history turns (all of them when the history has 10 or fewer)
followed by the new user turn, while the legacy variant forwards the entire
caller-supplied history untruncated followed by the new user turn. -/
theorem c3_history_truncation :
    (∀ (h : List ChatTurn) (m : List Char),
      buildMessagesMain h m = h.drop (h.length - 10) ++ [⟨"user".data, m⟩]) ∧
    (∀ (h : List ChatTurn) (m : List Char), h.length ≤ 10 →
      buildMessagesMain h m = h ++ [⟨"user".data, m⟩]) ∧
    (∀ (h : List ChatTurn) (m : List Char),
      buildMessagesLegacy h m = h ++ [⟨"user".data, m⟩]) := by
  have hmapid : ∀ l : List ChatTurn,
      l.map (fun t => (⟨t.role, t.content⟩ : ChatTurn)) = l := by
    intro l
    conv_rhs => rw [← List.map_id l]
    exact List.map_congr_left (fun t _ => rfl)
  refine ⟨fun h m => ?_, fun h m hle => ?_, fun h m => ?_⟩
  · rw [buildMessagesMain, hmapid]
  · rw [buildMessagesMain, hmapid, Nat.sub_eq_zero_of_le hle, List.drop_zero]
  · rw [buildMessagesLegacy, hmapid]

theorem c3_history_truncation_witness :
    ([(⟨"user".data, "hi".data⟩ : ChatTurn)].length ≤ 10) ∧
    buildMessagesMain [⟨"user".data, "hi".data⟩] "go".data =
      [⟨"user".data, "hi".data⟩] ++ [⟨"user".data, "go".data⟩] :=
  ⟨by decide, c3_history_truncation.2.1 [⟨"user".data, "hi".data⟩] "go".data (by decide)⟩

/-- Claim C2, counterexample: the single-record lookup by slug performs no
`archived`/`is-closed` filtering — `getHotelBySlug` returns the archived
item with slug `x`, so the item is not absent from every lookup output. -/
theorem c2_counterexample : getHotelBySlug archCache "x".data ≠ none := by
  decide

/-- Claim C2 (amended): items flagged `archived` or `is-closed` never
appear in the full listing (`getAllHotels` / `GET /api/hotels`) nor in the
marker listing (`GET /api/hotels/markers`) — every record of either output
originates from an unflagged item — but the single-record lookup by slug
(`GET /api/hotels/:slug` and chat slug resolution) does not filter these
flags and can return a flagged item. -/
theorem c2_flagged_items_hidden :
    (∀ (c : Cache) (r : HotelListRecord), r ∈ getAllHotels c →
      ∃ (h : Item) (f : FieldData), h ∈ c.hotels ∧ h.fieldData = some f ∧
        jsTruthy (fget f "archived") = false ∧
        jsTruthy (fget f "is-closed") = false ∧ r = toListRecord f) ∧
    (∀ (c : Cache) (m : MarkerRecord), m ∈ markersOf c →
      ∃ (h : Item) (f : FieldData), h ∈ c.hotels ∧ h.fieldData = some f ∧
        jsTruthy (fget f "archived") = false ∧
        jsTruthy (fget f "is-closed") = false ∧ m = toMarker f) := by
  constructor
  · intro c r hr
    simp only [getAllHotels, List.mem_map, List.mem_filter] at hr
    obtain ⟨h, ⟨hmem, hact⟩, heq⟩ := hr
    rcases hfd : h.fieldData with _ | f
    · rw [activeItem, hfd] at hact
      cases hact
    · rw [activeItem, hfd] at hact
      simp only [Bool.and_eq_true, Bool.not_eq_true'] at hact
      refine ⟨h, f, hmem, hfd, hact.1, hact.2, ?_⟩
      rw [← heq, hfd]
      rfl
  · intro c m hm
    simp only [markersOf, List.mem_filter, List.mem_map] at hm
    obtain ⟨⟨h, ⟨hmem, hact⟩, heq⟩, _⟩ := hm
    rcases hfd : h.fieldData with _ | f
    · rw [activeItem, hfd] at hact
      cases hact
    · rw [activeItem, hfd] at hact
      simp only [Bool.and_eq_true, Bool.not_eq_true'] at hact
      refine ⟨h, f, hmem, hfd, hact.1, hact.2, ?_⟩
      rw [← heq, hfd]
      rfl

theorem c2_flagged_items_hidden_witness :
    toListRecord [("slug", JVal.str "y".data)] ∈ getAllHotels cleanCache ∧
    (∃ (h : Item) (f : FieldData), h ∈ cleanCache.hotels ∧ h.fieldData = some f ∧
      jsTruthy (fget f "archived") = false ∧
      jsTruthy (fget f "is-closed") = false ∧
      toListRecord [("slug", JVal.str "y".data)] = toListRecord f) :=
  ⟨by decide,
   c2_flagged_items_hidden.1 cleanCache (toListRecord [("slug", JVal.str "y".data)])
     (by decide)⟩

theorem fetchStep_error (env : RefreshEnv) (oid : Option (List Char))
    (c : CacheLegacy) (upd : CacheLegacy → List Item → CacheLegacy)
    (e : CacheLegacy) (h : fetchStep env oid c upd = .error e) : e = c := by
  rcases oid with _ | i
  · simp [fetchStep] at h
  · rw [fetchStep] at h
    rcases hf : env.fetch i with u | items
    · rw [hf] at h
      simp at h
      exact h.symm
    · rw [hf] at h
      simp at h

theorem fetchStep_ok (env : RefreshEnv) (oid : Option (List Char))
    (c : CacheLegacy) (upd : CacheLegacy → List Item → CacheLegacy)
    (c' : CacheLegacy) (h : fetchStep env oid c upd = .ok c') :
    c' = c ∨ ∃ i items, oid = some i ∧ env.fetch i = .ok items ∧
      c' = upd c items := by
  rcases oid with _ | i
  · rw [fetchStep] at h
    simp at h
    exact Or.inl h.symm
  · rw [fetchStep] at h
    rcases hf : env.fetch i with u | items
    · rw [hf] at h
      simp at h
    · rw [hf] at h
      simp at h
      exact Or.inr ⟨i, items, rfl, hf, h.symm⟩

/-- Claim C1, counterexample: a refresh that throws during the regions
fetch has already assigned `cmsCache.hotels`, so the observed cache differs
from the state before the call — refresh is not atomic on error. -/
theorem c1_counterexample :
    (refreshRun envHotelsOkRegionsThrow cacheBefore).2 = true ∧
    (refreshRun envHotelsOkRegionsThrow cacheBefore).1.hotels ≠ cacheBefore.hotels := by
  decide

/-- Claim C1 (amended): a refresh invocation that throws after the
credential check leaves `lastFetchTimestamp` unchanged in both server
variants.  In the main server (`server.js`) the regions collection is also
unchanged and only the hotels collection may already have been replaced
wholesale by the freshly fetched hotels items.  In the legacy variant
(`part_000`), which fetches hotels, regions and a third collections slice
in sequence, the collections slice is unchanged on a throw, while each of
hotels and regions is either unchanged or already replaced wholesale by
its freshly fetched items when the error occurred after that assignment. -/
theorem c1_refresh_error_state :
    (∀ (env : RefreshEnv) (c : Cache), (refreshRun env c).2 = true →
      (refreshRun env c).1.lastFetch = c.lastFetch ∧
      (refreshRun env c).1.regions = c.regions ∧
      ((refreshRun env c).1.hotels = c.hotels ∨
        ∃ i items, (findCollectionIds env.collections).1 = some i ∧
          env.fetch i = .ok items ∧ (refreshRun env c).1.hotels = items)) ∧
    (∀ (env : RefreshEnv) (c : CacheLegacy), (refreshRunLegacy env c).2 = true →
      (refreshRunLegacy env c).1.lastFetch = c.lastFetch ∧
      (refreshRunLegacy env c).1.collections = c.collections ∧
      ((refreshRunLegacy env c).1.hotels = c.hotels ∨
        ∃ i items, (findCollectionIdsLegacy env.collections).1 = some i ∧
          env.fetch i = .ok items ∧ (refreshRunLegacy env c).1.hotels = items) ∧
      ((refreshRunLegacy env c).1.regions = c.regions ∨
        ∃ i items, (findCollectionIdsLegacy env.collections).2.1 = some i ∧
          env.fetch i = .ok items ∧ (refreshRunLegacy env c).1.regions = items)) := by
  constructor
  · intro env c hthrow
    by_cases ht : envTruthy env.webflowToken
    · rcases h1 : (findCollectionIds env.collections).1 with _ | i
      · rcases h2 : (findCollectionIds env.collections).2 with _ | j
        · simp [refreshRun, ht, h1, h2] at hthrow
        · rcases h3 : env.fetch j with e | items
          · refine ⟨?_, ?_, Or.inl ?_⟩ <;> simp [refreshRun, ht, h1, h2, h3]
          · simp [refreshRun, ht, h1, h2, h3] at hthrow
      · rcases h3 : env.fetch i with e | items
        · refine ⟨?_, ?_, Or.inl ?_⟩ <;> simp [refreshRun, ht, h1, h3]
        · rcases h2 : (findCollectionIds env.collections).2 with _ | j
          · simp [refreshRun, ht, h1, h2, h3] at hthrow
          · rcases h4 : env.fetch j with e | items2
            · refine ⟨?_, ?_, Or.inr ⟨i, items, rfl, h3, ?_⟩⟩ <;>
                simp [refreshRun, ht, h1, h2, h3, h4]
            · simp [refreshRun, ht, h1, h2, h3, h4] at hthrow
    · simp [refreshRun, ht] at hthrow
  · intro env c hthrow
    by_cases ht : envTruthy env.webflowToken
    · rcases hs1 : fetchStep env (findCollectionIdsLegacy env.collections).1 c
          (fun c items => { c with hotels := items }) with c1 | c1
      · have hc1 : c1 = c := fetchStep_error _ _ _ _ _ hs1
        subst hc1
        refine ⟨?_, ?_, Or.inl ?_, Or.inl ?_⟩ <;> simp [refreshRunLegacy, ht, hs1]
      · rcases hs2 : fetchStep env (findCollectionIdsLegacy env.collections).2.1 c1
            (fun c items => { c with regions := items }) with c2 | c2
        · have hc2 : c2 = c1 := fetchStep_error _ _ _ _ _ hs2
          subst hc2
          rcases fetchStep_ok _ _ _ _ _ hs1 with hc1 | ⟨i, items, hid, hf, hc1⟩
          · subst hc1
            refine ⟨?_, ?_, Or.inl ?_, Or.inl ?_⟩ <;>
              simp [refreshRunLegacy, ht, hs1, hs2]
          · subst hc1
            refine ⟨?_, ?_, Or.inr ⟨i, items, hid, hf, ?_⟩, Or.inl ?_⟩ <;>
              simp [refreshRunLegacy, ht, hs1, hs2]
        · rcases hs3 : fetchStep env (findCollectionIdsLegacy env.collections).2.2 c2
              (fun c items => { c with collections := items }) with c3 | c3
          · have hc3 : c3 = c2 := fetchStep_error _ _ _ _ _ hs3
            subst hc3
            rcases fetchStep_ok _ _ _ _ _ hs1 with hc1 | ⟨i, items, hid, hf, hc1⟩ <;>
              rcases fetchStep_ok _ _ _ _ _ hs2 with hc2 | ⟨j, jtems, hjd, hjf, hc2⟩
            · subst hc1
              subst hc2
              refine ⟨?_, ?_, Or.inl ?_, Or.inl ?_⟩ <;>
                simp [refreshRunLegacy, ht, hs1, hs2, hs3]
            · subst hc1
              subst hc2
              refine ⟨?_, ?_, Or.inl ?_, Or.inr ⟨j, jtems, hjd, hjf, ?_⟩⟩ <;>
                simp [refreshRunLegacy, ht, hs1, hs2, hs3]
            · subst hc1
              subst hc2
              refine ⟨?_, ?_, Or.inr ⟨i, items, hid, hf, ?_⟩, Or.inl ?_⟩ <;>
                simp [refreshRunLegacy, ht, hs1, hs2, hs3]
            · subst hc1
              subst hc2
              refine ⟨?_, ?_, Or.inr ⟨i, items, hid, hf, ?_⟩,
                  Or.inr ⟨j, jtems, hjd, hjf, ?_⟩⟩ <;>
                simp [refreshRunLegacy, ht, hs1, hs2, hs3]
          · simp [refreshRunLegacy, ht, hs1, hs2, hs3] at hthrow
    · simp [refreshRunLegacy, ht] at hthrow

theorem c1_refresh_error_state_witness :
    (refreshRunLegacy envLegacyCollectionsThrow cacheLegacyBefore).2 = true ∧
    ((refreshRunLegacy envLegacyCollectionsThrow cacheLegacyBefore).1.lastFetch =
        cacheLegacyBefore.lastFetch ∧
      (refreshRunLegacy envLegacyCollectionsThrow cacheLegacyBefore).1.collections =
        cacheLegacyBefore.collections ∧
      ((refreshRunLegacy envLegacyCollectionsThrow cacheLegacyBefore).1.hotels =
          cacheLegacyBefore.hotels ∨
        ∃ i items,
          (findCollectionIdsLegacy envLegacyCollectionsThrow.collections).1 =
            some i ∧
          envLegacyCollectionsThrow.fetch i = .ok items ∧
          (refreshRunLegacy envLegacyCollectionsThrow cacheLegacyBefore).1.hotels =
            items) ∧
      ((refreshRunLegacy envLegacyCollectionsThrow cacheLegacyBefore).1.regions =
          cacheLegacyBefore.regions ∨
        ∃ i items,
          (findCollectionIdsLegacy envLegacyCollectionsThrow.collections).2.1 =
            some i ∧
          envLegacyCollectionsThrow.fetch i = .ok items ∧
          (refreshRunLegacy envLegacyCollectionsThrow cacheLegacyBefore).1.regions =
            items)) :=
  ⟨by decide,
   c1_refresh_error_state.2 envLegacyCollectionsThrow cacheLegacyBefore (by decide)⟩

/-- Claim C7, counterexample: when the raw model text is empty (its
stripped form certainly fails JSON parsing), the degraded reply's message
is the canned fallback sentence, not the (empty) first 200 characters of
the raw text, because of the `|| "Let me help you..."` default. -/
theorem c7_counterexample :
    (chatRespond (fun _ => none) ⟨[], [], none⟩ []).message ≠
      ([] : List Char).take 200 := by
  decide

/-- Claim C7 (amended): whenever the stripped model text fails JSON parsing
and the raw text is non-empty, the chat handler returns (without raising an
error) a degraded reply whose message is exactly the first 200 characters
of the raw text, whose hotel list is empty and whose map action is null;
for an empty raw text the message is a fixed canned sentence instead. -/
theorem c7_parse_failure_fallback (parse : List Char → Option ParsedReply)
    (c : Cache) (raw : List Char) (hfail : parse (cleanFences raw) = none)
    (hraw : raw ≠ []) :
    chatRespond parse c raw = ⟨raw.take 200, [], none⟩ := by
  have htake : (raw.take 200).isEmpty = false := by
    rcases raw with _ | ⟨a, t⟩
    · exact absurd rfl hraw
    · rfl
  rw [chatRespond, hfail]
  simp [fallbackParsed, strOrElse, htake, hotelCards]

theorem c7_parse_failure_fallback_witness :
    ((fun _ : List Char => (none : Option ParsedReply)) (cleanFences "oops".data) =
      none) ∧ "oops".data ≠ [] ∧
    chatRespond (fun _ => none) ⟨[], [], none⟩ "oops".data =
      ⟨"oops".data.take 200, [], none⟩ :=
  ⟨rfl, by decide,
   c7_parse_failure_fallback (fun _ => none) ⟨[], [], none⟩ "oops".data rfl (by decide)⟩

/-- Evaluation of the pagination loop when no request fails: it issues one
request per remaining full page plus one trailing request for the short (or
empty) final page, and gathers every remaining item. -/
theorem fetchLoop_noFail (s : List Item) :
    ∀ (n offset req : Nat), s.length - offset ≤ n →
      fetchLoop s (fun _ => false) offset req =
        ((s.length - offset) / 100 + 1, s.drop offset) := by
  intro n
  induction n with
  | zero =>
    intro offset req hle
    have hpage : ((s.drop offset).take 100).length ≠ 100 := by
      rw [List.length_take, List.length_drop]
      omega
    rw [fetchLoop, if_neg Bool.false_ne_true, dif_neg hpage,
      List.take_of_length_le (by rw [List.length_drop]; omega)]
    have h0 : s.length - offset = 0 := by omega
    rw [h0]
  | succ n ih =>
    intro offset req hle
    by_cases hpage : ((s.drop offset).take 100).length = 100
    · have hlen : 100 ≤ s.length - offset := by
        rw [List.length_take, List.length_drop] at hpage
        omega
      rw [fetchLoop, if_neg Bool.false_ne_true, dif_pos hpage,
        ih (offset + 100) (req + 1) (by omega), Prod.mk.injEq]
      refine ⟨by omega, ?_⟩
      have hdd : s.drop (offset + 100) = (s.drop offset).drop 100 := by
        rw [List.drop_drop, Nat.add_comm]
      rw [hdd, List.take_append_drop]
    · have hlt : s.length - offset < 100 := by
        rw [List.length_take, List.length_drop] at hpage
        omega
      rw [fetchLoop, if_neg Bool.false_ne_true, dif_neg hpage,
        List.take_of_length_le (by rw [List.length_drop]; omega),
        Nat.div_eq_of_lt hlt]

/-- Evaluation of the pagination loop under arbitrary failures: the items
gathered are a prefix of the remaining collection (the concatenation of the
successfully fetched pages, in order) and the number of requests never
exceeds the no-failure count. -/
theorem fetchLoop_partial (s : List Item) (fail : Nat → Bool) :
    ∀ (n offset req : Nat), s.length - offset ≤ n →
      (∃ t, (fetchLoop s fail offset req).2 ++ t = s.drop offset) ∧
      (fetchLoop s fail offset req).1 ≤ (s.length - offset) / 100 + 1 := by
  intro n
  induction n with
  | zero =>
    intro offset req hle
    by_cases hf : fail req = true
    · rw [fetchLoop, if_pos hf]
      exact ⟨⟨s.drop offset, rfl⟩, by omega⟩
    · have hpage : ((s.drop offset).take 100).length ≠ 100 := by
        rw [List.length_take, List.length_drop]
        omega
      rw [fetchLoop, if_neg hf, dif_neg hpage]
      exact ⟨⟨(s.drop offset).drop 100, List.take_append_drop 100 _⟩, by omega⟩
  | succ n ih =>
    intro offset req hle
    by_cases hf : fail req = true
    · rw [fetchLoop, if_pos hf]
      exact ⟨⟨s.drop offset, rfl⟩, by omega⟩
    · by_cases hpage : ((s.drop offset).take 100).length = 100
      · have hlen : 100 ≤ s.length - offset := by
          rw [List.length_take, List.length_drop] at hpage
          omega
        rw [fetchLoop, if_neg hf, dif_pos hpage]
        obtain ⟨⟨t, ht⟩, hcount⟩ := ih (offset + 100) (req + 1) (by omega)
        constructor
        · refine ⟨t, ?_⟩
          have hdd : s.drop (offset + 100) = (s.drop offset).drop 100 := by
            rw [List.drop_drop, Nat.add_comm]
          rw [List.append_assoc, ht, hdd, List.take_append_drop]
        · simp only []
          omega
      · rw [fetchLoop, if_neg hf, dif_neg hpage]
        exact ⟨⟨(s.drop offset).drop 100, List.take_append_drop 100 _⟩, by omega⟩

/-- Claim C4, counterexample: for an empty collection (N = 0) and page size
100, `ceil(N/P) = 0`, yet the loop still issues one page request (the
request that observes the empty page), so the request count is not
`ceil(N/P)`; the same off-by-one occurs at every exact multiple of 100. -/
theorem c4_counterexample :
    (fetchAllCollectionItems [] (fun _ => false)).1 ≠
      (([] : List Item).length + 100 - 1) / 100 := by
  rw [fetchAllCollectionItems, fetchLoop_noFail [] 0 0 0 (by simp)]
  decide

/-- Claim C4 (amended): against a collection of N items at page size 100,
`fetchAllCollectionItems` with no failing request issues exactly
`N / 100 + 1` page requests (one per full page plus the trailing request
that observes the short or empty final page — this equals `ceil(N/100)`
except when N is a multiple of 100, where it is one more) and returns
exactly all N items in order; with failing requests it issues no more
requests than that, terminates without propagating the error, and returns
the concatenation, in order, of the successfully fetched pages (a prefix of
the collection). -/
theorem c4_pagination :
    (∀ s : List Item,
      fetchAllCollectionItems s (fun _ => false) = (s.length / 100 + 1, s)) ∧
    (∀ (s : List Item) (fail : Nat → Bool),
      (∃ t, (fetchAllCollectionItems s fail).2 ++ t = s) ∧
      (fetchAllCollectionItems s fail).1 ≤ s.length / 100 + 1) := by
  constructor
  · intro s
    rw [fetchAllCollectionItems, fetchLoop_noFail s s.length 0 0 (by omega)]
    simp
  · intro s fail
    have h := fetchLoop_partial s fail s.length 0 0 (by omega)
    rw [fetchAllCollectionItems]
    simpa using h

theorem tick_not_ws : wsChar tick = false := rfl

theorem isPrefixOf_append_self (p x : List Char) : p.isPrefixOf (p ++ x) = true := by
  induction p with
  | nil => simp
  | cons a t ih => simp [List.cons_append, List.isPrefixOf_cons₂, ih]

theorem ticks_not_prefixOf (c : Char) (xs : List Char) (hc : c ≠ tick) :
    List.isPrefixOf [tick, tick, tick] (c :: xs) = false := by
  rw [List.isPrefixOf_cons₂]
  rw [beq_eq_false_iff_ne.mpr (Ne.symm hc), Bool.false_and]

theorem ticksJson_not_prefixOf (c : Char) (xs : List Char) (hc : c ≠ tick) :
    List.isPrefixOf [tick, tick, tick, 'j', 's', 'o', 'n'] (c :: xs) = false := by
  rw [List.isPrefixOf_cons₂]
  rw [beq_eq_false_iff_ne.mpr (Ne.symm hc), Bool.false_and]

theorem ticks_isSuffixOf_append (x : List Char) :
    List.isSuffixOf [tick, tick, tick] (x ++ [tick, tick, tick]) = true := by
  rw [List.isSuffixOf, List.reverse_append]
  exact isPrefixOf_append_self _ _

theorem ticks_not_suffixOf (T : List Char) (hlast : T.getLast? ≠ some tick) :
    List.isSuffixOf [tick, tick, tick] T = false := by
  rw [List.isSuffixOf]
  rcases hr : T.reverse with _ | ⟨b, u⟩
  · rfl
  · have hb : T.getLast? = some b := by
      rw [← List.head?_reverse, hr]
      rfl
    have hbn : b ≠ tick := fun h => hlast (by rw [hb, h])
    show List.isPrefixOf [tick, tick, tick] (b :: u) = false
    exact ticks_not_prefixOf b u hbn

theorem trimStr_eq_self (s : List Char)
    (h1 : ∀ c, s.head? = some c → wsChar c = false)
    (h2 : ∀ c, s.getLast? = some c → wsChar c = false) :
    trimStr s = s := by
  rcases s with _ | ⟨a, t⟩
  · rfl
  · have ha : wsChar a = false := h1 a rfl
    rw [trimStr, List.dropWhile_cons_of_neg (by simp [ha])]
    rcases hr : (a :: t).reverse with _ | ⟨b, u⟩
    · exact absurd hr (by simp)
    · have hb : (a :: t).getLast? = some b := by
        rw [← List.head?_reverse, hr]
        rfl
      have hwb : wsChar b = false := h2 b hb
      rw [List.dropWhile_cons_of_neg (by simp [hwb]), ← hr, List.reverse_reverse]

theorem json_prefix_append (T : List Char)
    (hj : List.isPrefixOf ['j', 's', 'o', 'n'] T = false) :
    List.isPrefixOf ['j', 's', 'o', 'n'] (T ++ [tick, tick, tick]) = false := by
  have hs : ('s' == tick) = false := rfl
  have ho : ('o' == tick) = false := rfl
  have hn : ('n' == tick) = false := rfl
  rcases T with _ | ⟨c1, _ | ⟨c2, _ | ⟨c3, _ | ⟨c4, rest⟩⟩⟩⟩
  · rfl
  · simp [List.isPrefixOf_cons₂, hs]
  · simp [List.isPrefixOf_cons₂, ho]
  · simp [List.isPrefixOf_cons₂, hn]
  · simp only [List.isPrefixOf_cons₂, List.cons_append] at hj ⊢
    simpa using hj

theorem stripJsonFence_pos (s : List Char)
    (h : List.isPrefixOf "```json".data s = true) : stripJsonFence s = s.drop 7 := by
  simp [stripJsonFence, h]

theorem stripJsonFence_neg (s : List Char)
    (h : List.isPrefixOf "```json".data s = false) : stripJsonFence s = s := by
  simp [stripJsonFence, h]

theorem stripTickPre_pos (s : List Char)
    (h : List.isPrefixOf "```".data s = true) : stripTickPre s = s.drop 3 := by
  simp [stripTickPre, h]

theorem stripTickPre_neg (s : List Char)
    (h : List.isPrefixOf "```".data s = false) : stripTickPre s = s := by
  simp [stripTickPre, h]

theorem stripTickSuf_pos (s : List Char)
    (h : List.isSuffixOf "```".data s = true) :
    stripTickSuf s = s.take (s.length - 3) := by
  simp [stripTickSuf, h]

theorem stripTickSuf_neg (s : List Char)
    (h : List.isSuffixOf "```".data s = false) : stripTickSuf s = s := by
  simp [stripTickSuf, h]

/-- Claim C6, counterexample: the text `json7` (which does not parse as
JSON) wrapped in plain <code>```</code> fencing strips to `7` (the cleanup
mistakes the leading backticks plus the text's own `json` for a
<code>```json</code> marker, a text that does parse as JSON), while the
unfenced text strips to itself — the fenced and unfenced forms do not reach
`JSON.parse` identically. -/
theorem c6_counterexample :
    cleanFences ("```".data ++ "json7".data ++ "```".data) ≠
      cleanFences "json7".data := by
  decide

/-- Claim C6 (amended): for every trimmed non-empty chat-completion text T
that does not start with a backtick, does not start with the letters
`json`, and does not end with a backtick, wrapping T in markdown code
fencing — leading <code>```json</code> or <code>```</code> and trailing
<code>```</code> — yields exactly the same text after the strip step as the
unfenced T (namely T itself), hence the same parse result; without those
side conditions the strip step can differ, as the counterexample shows. -/
theorem c6_fence_strip_equiv (T : List Char) (c : Char) (rest : List Char)
    (hT : T = c :: rest) (htrim : trimStr T = T) (hc : c ≠ tick)
    (hlast : T.getLast? ≠ some tick)
    (hjson : List.isPrefixOf "json".data T = false) :
    cleanFences ("```json".data ++ T ++ "```".data) = cleanFences T ∧
    cleanFences ("```".data ++ T ++ "```".data) = cleanFences T := by
  have hj7 : List.isPrefixOf "```json".data T = false := by
    rw [hT]
    exact ticksJson_not_prefixOf c rest hc
  have hp3 : List.isPrefixOf "```".data T = false := by
    rw [hT]
    exact ticks_not_prefixOf c rest hc
  have hs3 : List.isSuffixOf "```".data T = false := ticks_not_suffixOf T hlast
  have hcfT : cleanFences T = T := by
    rw [cleanFences, htrim, stripJsonFence_neg _ hj7, stripTickPre_neg _ hp3,
      stripTickSuf_neg _ hs3, htrim]
  have hs2 : List.isSuffixOf "```".data (T ++ "```".data) = true :=
    ticks_isSuffixOf_append T
  have htake : (T ++ "```".data).take ((T ++ "```".data).length - 3) = T := by
    rw [List.length_append, show ("```".data).length = 3 from rfl,
      Nat.add_sub_cancel, List.take_left]
  have hp2 : List.isPrefixOf "```".data (T ++ "```".data) = false := by
    rw [hT, List.cons_append]
    exact ticks_not_prefixOf c _ hc
  constructor
  · have hWtrim : trimStr ("```json".data ++ (T ++ "```".data)) =
        "```json".data ++ (T ++ "```".data) := by
      apply trimStr_eq_self
      · intro x hx
        rw [show ("```json".data ++ (T ++ "```".data)).head? = some tick from rfl]
          at hx
        injection hx with hx
        rw [← hx]
        rfl
      · intro x hx
        rw [List.getLast?_append_of_ne_nil _ (by simp),
          List.getLast?_append_of_ne_nil _ (by simp)] at hx
        injection hx with hx
        rw [← hx]
        rfl
    have e1 : List.isPrefixOf "```json".data
        ("```json".data ++ (T ++ "```".data)) = true := isPrefixOf_append_self _ _
    have hdrop : ("```json".data ++ (T ++ "```".data)).drop 7 = T ++ "```".data :=
      List.drop_left' rfl
    rw [List.append_assoc, hcfT, cleanFences, hWtrim, stripJsonFence_pos _ e1,
      hdrop, stripTickPre_neg _ hp2, stripTickSuf_pos _ hs2, htake, htrim]
  · have hW2trim : trimStr ("```".data ++ (T ++ "```".data)) =
        "```".data ++ (T ++ "```".data) := by
      apply trimStr_eq_self
      · intro x hx
        rw [show ("```".data ++ (T ++ "```".data)).head? = some tick from rfl] at hx
        injection hx with hx
        rw [← hx]
        rfl
      · intro x hx
        rw [List.getLast?_append_of_ne_nil _ (by simp),
          List.getLast?_append_of_ne_nil _ (by simp)] at hx
        injection hx with hx
        rw [← hx]
        rfl
    have e2 : List.isPrefixOf "```json".data
        ("```".data ++ (T ++ "```".data)) = false := json_prefix_append T hjson
    have e3 : List.isPrefixOf "```".data
        ("```".data ++ (T ++ "```".data)) = true := isPrefixOf_append_self _ _
    have hdrop3 : ("```".data ++ (T ++ "```".data)).drop 3 = T ++ "```".data :=
      List.drop_left' rfl
    rw [List.append_assoc, hcfT, cleanFences, hW2trim, stripJsonFence_neg _ e2,
      stripTickPre_pos _ e3, hdrop3, stripTickSuf_pos _ hs2, htake, htrim]

theorem c6_fence_strip_equiv_witness :
    ("t7".data = 't' :: "7".data) ∧ trimStr "t7".data = "t7".data ∧
    ('t' ≠ tick) ∧ ("t7".data.getLast? ≠ some tick) ∧
    (List.isPrefixOf "json".data "t7".data = false) ∧
    (cleanFences ("```json".data ++ "t7".data ++ "```".data) =
        cleanFences "t7".data ∧
      cleanFences ("```".data ++ "t7".data ++ "```".data) =
        cleanFences "t7".data) :=
  ⟨rfl, by decide, by decide, by decide, by decide,
   c6_fence_strip_equiv "t7".data 't' "7".data rfl (by decide) (by decide)
     (by decide) (by decide)⟩

theorem fgetA_name (r : HotelRecord) : fget (asFieldData r) "name" = r.name := rfl

theorem fgetA_slug (r : HotelRecord) : fget (asFieldData r) "slug" = r.slug := rfl

theorem fgetA_region (r : HotelRecord) : fget (asFieldData r) "region" = r.region := rfl

theorem fgetA_description (r : HotelRecord) :
    fget (asFieldData r) "description" = r.description := rfl

theorem fgetA_lat (r : HotelRecord) :
    fget (asFieldData r) "lat" =
      (match r.lat with | some q => .num q | none => .nullv) := rfl

theorem fgetA_lng (r : HotelRecord) :
    fget (asFieldData r) "lng" =
      (match r.lng with | some q => .num q | none => .nullv) := rfl

theorem fgetA_rooms (r : HotelRecord) : fget (asFieldData r) "rooms" = r.rooms := rfl

theorem fgetA_hotelName (r : HotelRecord) :
    fget (asFieldData r) "hotel-name" = .undefined := rfl

theorem fgetA_location (r : HotelRecord) :
    fget (asFieldData r) "location" = .undefined := rfl

theorem fgetA_region2 (r : HotelRecord) :
    fget (asFieldData r) "region-2" = .undefined := rfl

theorem fgetA_shortDesc (r : HotelRecord) :
    fget (asFieldData r) "short-description" = .undefined := rfl

theorem fgetA_metaDesc (r : HotelRecord) :
    fget (asFieldData r) "meta-description" = .undefined := rfl

theorem fgetA_latitude (r : HotelRecord) :
    fget (asFieldData r) "latitude" = .undefined := rfl

theorem fgetA_longitude (r : HotelRecord) :
    fget (asFieldData r) "longitude" = .undefined := rfl

theorem fgetA_lon (r : HotelRecord) : fget (asFieldData r) "lon" = .undefined := rfl

theorem fgetA_coverImage (r : HotelRecord) :
    fget (asFieldData r) "cover-image" = .undefined := rfl

theorem fgetA_cover (r : HotelRecord) : fget (asFieldData r) "cover" = .undefined := rfl

theorem fgetA_mainImage (r : HotelRecord) :
    fget (asFieldData r) "main-image" = .undefined := rfl

theorem fgetA_bookingUrlKey (r : HotelRecord) :
    fget (asFieldData r) "booking-url" = .undefined := rfl

theorem fgetA_bookingLink (r : HotelRecord) :
    fget (asFieldData r) "booking-link" = .undefined := rfl

theorem fgetA_showPrices (r : HotelRecord) :
    fget (asFieldData r) "show-prices-url" = .undefined := rfl

theorem fgetA_numRooms (r : HotelRecord) :
    fget (asFieldData r) "number-of-rooms" = .undefined := rfl

theorem chain3_falsy_eq (a b c : JVal)
    (h : jsTruthy (jsOr a (jsOr b (jsOr c (.str [])))) = false) :
    jsOr a (jsOr b (jsOr c (.str []))) = .str [] := by
  have h1 := jsOr_eq_right_of_falsy _ _ h
  rw [h1] at h ⊢
  have h2 := jsOr_eq_right_of_falsy _ _ h
  rw [h2] at h ⊢
  exact jsOr_eq_right_of_falsy _ _ h

theorem chain2_falsy_eq (a b : JVal)
    (h : jsTruthy (jsOr a (jsOr b (.str []))) = false) :
    jsOr a (jsOr b (.str [])) = .str [] := by
  have h1 := jsOr_eq_right_of_falsy _ _ h
  rw [h1] at h ⊢
  exact jsOr_eq_right_of_falsy _ _ h

theorem coerceCoord_ne_zero (v : JVal) (q : ℚ) (h : coerceCoord v = some q) :
    q ≠ 0 := by
  rcases hp : parseFloatJ v with _ | q'
  · rw [coerceCoord, hp] at h
    simp at h
  · rw [coerceCoord, hp] at h
    by_cases hz : q' = 0
    · simp [hz] at h
    · simp [hz] at h
      rw [← h]
      exact hz

/-- Claim C8, counterexample: the normalizer is not idempotent — its output
stores the image under the key `image`, which is not among the candidate
source keys (`cover-image`/`cover`/`main-image`), so a second application
to the normalized output of an item with a cover image resets `image` to
the empty string. -/
theorem c8_counterexample :
    toHotelRecord (asFieldData (toHotelRecord imgItemF)) ≠ toHotelRecord imgItemF := by
  decide

/-- Claim C8 (amended): applying the normalizer a second time to its own
normalized output (read back as an item's field data) reproduces every
attribute except `image` and `bookingUrl`, which are reset to the empty
string because the output keys `image`/`bookingUrl` are not among the
candidate source keys; the normalizer is idempotent exactly on those
records whose image and booking URL are empty. -/
theorem c8_normalizer_idempotence_mod_image (f : FieldData) :
    toHotelRecord (asFieldData (toHotelRecord f)) =
      { toHotelRecord f with image := .str [], bookingUrl := .str [] } := by
  have hname : jsTruthy (toHotelRecord f).name = true :=
    jsTruthy_jsOr_right _ _ (jsTruthy_jsOr_right _ _ rfl)
  have hregion : jsTruthy (toHotelRecord f).region = true :=
    jsTruthy_jsOr_right _ _ (jsTruthy_jsOr_right _ _ (jsTruthy_jsOr_right _ _ rfl))
  set r := toHotelRecord f with hr
  refine HotelRecord.ext ?_ ?_ ?_ ?_ ?_ ?_ ?_ ?_ ?_ ?_
  · show jsOr (fget (asFieldData r) "name")
      (jsOr (fget (asFieldData r) "hotel-name") (.str "Unnamed".data)) = r.name
    rw [fgetA_name, fgetA_hotelName, jsOr_undef_left]
    exact jsOr_pos _ _ hname
  · show fget (asFieldData r) "slug" = r.slug
    exact fgetA_slug r
  · show jsOr (fget (asFieldData r) "region") (jsOr (fget (asFieldData r) "location")
      (jsOr (fget (asFieldData r) "region-2") (.str "Portugal".data))) = r.region
    rw [fgetA_region, fgetA_location, fgetA_region2, jsOr_undef_left, jsOr_undef_left]
    exact jsOr_pos _ _ hregion
  · show jsOr (fget (asFieldData r) "short-description")
      (jsOr (fget (asFieldData r) "description")
        (jsOr (fget (asFieldData r) "meta-description") (.str []))) = r.description
    rw [fgetA_shortDesc, fgetA_description, fgetA_metaDesc, jsOr_undef_left,
      jsOr_undef_left]
    by_cases hd : jsTruthy r.description = true
    · exact jsOr_pos _ _ hd
    · rw [jsOr_neg _ _ (by simpa using hd)]
      exact (chain3_falsy_eq _ _ _ (by simpa using hd)).symm
  · show coerceCoord (jsOr (fget (asFieldData r) "latitude")
      (fget (asFieldData r) "lat")) = r.lat
    rw [fgetA_latitude, fgetA_lat, jsOr_undef_left]
    rcases hl : r.lat with _ | q
    · rfl
    · have hq : q ≠ 0 := coerceCoord_ne_zero _ q hl
      simp [coerceCoord, parseFloatJ, hq]
  · show coerceCoord (jsOr (fget (asFieldData r) "longitude")
      (jsOr (fget (asFieldData r) "lng") (fget (asFieldData r) "lon"))) = r.lng
    rw [fgetA_longitude, fgetA_lng, fgetA_lon, jsOr_undef_left]
    rcases hl : r.lng with _ | q
    · rfl
    · have hq : q ≠ 0 := coerceCoord_ne_zero _ q hl
      rw [jsOr_pos _ _ (by simp [jsTruthy, hq])]
      simp [coerceCoord, parseFloatJ, hq]
  · show jsOr (dotUrl (fget (asFieldData r) "cover-image"))
      (jsOr (dotUrl (fget (asFieldData r) "cover"))
        (jsOr (dotUrl (fget (asFieldData r) "main-image")) (.str []))) = .str []
    rw [fgetA_coverImage, fgetA_cover, fgetA_mainImage]
    rfl
  · show jsOr (fget (asFieldData r) "booking-url")
      (jsOr (fget (asFieldData r) "booking-link")
        (jsOr (fget (asFieldData r) "show-prices-url") (.str []))) = .str []
    rw [fgetA_bookingUrlKey, fgetA_bookingLink, fgetA_showPrices]
    rfl
  · show jsOr (fget (asFieldData r) "number-of-rooms")
      (jsOr (fget (asFieldData r) "rooms") (.str [])) = r.rooms
    rw [fgetA_numRooms, fgetA_rooms, jsOr_undef_left]
    by_cases hd : jsTruthy r.rooms = true
    · exact jsOr_pos _ _ hd
    · rw [jsOr_neg _ _ (by simpa using hd)]
      exact (chain2_falsy_eq _ _ (by simpa using hd)).symm
  · show "https://joandso.com/hotels-portugal/".data ++
      jsToString (fget (asFieldData r) "slug") = r.url
    rw [fgetA_slug]
    rfl

end JoAndSo
